import Mathlib

/-!
Verification of the `MultiSelect` searchable multi-select dropdown component
(`src/components/profile/ui/MultiSelect.tsx`).

The component is a controlled UI element: the host owns `options` (the
candidate set) and `selectedValues` (the current selection) and receives the
complete next selection through `onChange`.  The component owns only two
pieces of transient state, the `isOpen` flag and the `searchTerm` string.

We embed the component shallowly:
* the JavaScript string/array primitives the component uses
  (`String.prototype.toLowerCase`, `String.prototype.includes`,
  `Array.prototype.includes`, `Array.prototype.filter`) become Lean
  functions over `String` and `List String`;
* each event handler of the component (`toggleDropdown`, `handleSelect`,
  `handleRemove`, `handleKeyDown`, `handleClickOutside`, the container
  `onClick`) becomes a case of a step function on the transient state,
  emitting the `onChange` payload when the source handler calls `onChange`;
* the render logic of the dropdown panel (the empty-state message chosen by
  the truthiness of `searchTerm`) becomes a function returning the rendered
  message, when any;
* the `useEffect` that registers the document-level `mousedown` listener and
  returns a cleanup deregistering it becomes a mount/unmount step function on
  a document-listener state.
-/

namespace MultiSelectModel

/-- `s.toLowerCase()` of JavaScript, modelled character-wise with
`Char.toLower` (ASCII case folding, which covers every string the component
handles). -/
def jsToLowerCase (s : String) : String :=
  ⟨s.toList.map Char.toLower⟩

/-- `s.includes(pat)` of JavaScript on strings: `pat` occurs contiguously in
`s` (substring containment; the empty pattern is contained in every
string). -/
def jsStringIncludes (s pat : String) : Bool :=
  decide (pat.toList <:+: s.toList)

/-- `arr.includes(a)` of JavaScript on arrays of strings: membership by exact
string equality. -/
def jsArrayIncludes (l : List String) (a : String) : Bool :=
  l.contains a

/-- Source, lines 25-28:
`options.filter(option => option.toLowerCase().includes(searchTerm.toLowerCase()) && !selectedValues.includes(option))`. -/
def filteredOptions (options selectedValues : List String) (searchTerm : String) :
    List String :=
  options.filter fun option =>
    jsStringIncludes (jsToLowerCase option) (jsToLowerCase searchTerm)
      && !(jsArrayIncludes selectedValues option)

/-- The spec's own formula for candidate visibility, written in the spec's
order of conjuncts:
`candidates.filter(c => !selectedValues.includes(c) && c.toLowerCase().includes(searchTerm.toLowerCase()))`.
Kept separate from `filteredOptions` so the two can be compared. -/
def specCandidateVisibility (options selectedValues : List String) (searchTerm : String) :
    List String :=
  options.filter fun c =>
    !(jsArrayIncludes selectedValues c)
      && jsStringIncludes (jsToLowerCase c) (jsToLowerCase searchTerm)

/-- Source, lines 56-62: the `onChange` payload of `handleSelect` is
`[...selectedValues, option]`. -/
def handleSelect (selectedValues : List String) (option : String) : List String :=
  selectedValues ++ [option]

/-- Source, lines 64-66: the `onChange` payload of `handleRemove` is
`selectedValues.filter(value => value !== option)`. -/
def handleRemove (selectedValues : List String) (option : String) : List String :=
  selectedValues.filter fun value => value != option

/-- The component's transient state: the `isOpen` and `searchTerm`
`useState` cells. -/
structure MSState where
  isOpen : Bool
  searchTerm : String
deriving DecidableEq, Repr

/-- Both cells start at their `useState` defaults: `false` and `''`. -/
def initState : MSState :=
  { isOpen := false, searchTerm := "" }

/-- The user events the rendered markup can deliver to the component's
handlers. -/
inductive MSEvent where
  /-- A click on the field's container (`onClick={() => setIsOpen(true)}`). -/
  | containerClick
  /-- Activating the chevron toggle button (`toggleDropdown`; the button
  stops propagation, so the container click does not also fire). -/
  | toggleClick
  /-- A document-level `mousedown` whose target is outside the component's
  DOM subtree (`handleClickOutside` takes its `setIsOpen(false)` branch). -/
  | outsideMouseDown
  /-- The Escape key inside the search input (`handleKeyDown`). -/
  | escapeKey
  /-- Typing in the search input (`setSearchTerm(e.target.value)`). -/
  | inputChange (t : String)
  /-- Clicking a row of the option list (`handleSelect`). -/
  | selectOption (o : String)
  /-- Activating the removal control of a chip (`handleRemove`; the button
  stops propagation, so the container click does not also fire). -/
  | removeChip (v : String)
deriving DecidableEq, Repr

/-- One step of the component: the next transient state together with the
`onChange` payload emitted during the step (`none` when `onChange` is not
called).  The search input and the option list exist in the markup only
while `isOpen` is true, so their events are no-ops when closed. -/
def stepEmit (options selectedValues : List String) (s : MSState) :
    MSEvent → MSState × Option (List String)
  | .containerClick => ({ s with isOpen := true }, none)
  | .toggleClick => ({ isOpen := !s.isOpen, searchTerm := "" }, none)
  | .outsideMouseDown => ({ s with isOpen := false }, none)
  | .escapeKey => (if s.isOpen then { s with isOpen := false } else s, none)
  | .inputChange t => (if s.isOpen then { s with searchTerm := t } else s, none)
  | .selectOption o =>
      if s.isOpen then
        ({ s with searchTerm := "" }, some (handleSelect selectedValues o))
      else (s, none)
  | .removeChip v => (s, some (handleRemove selectedValues v))

/-- The transient-state component of a step.  It does not depend on the
`options` and `selectedValues` props, so they are instantiated with `[]`. -/
def step (s : MSState) (e : MSEvent) : MSState :=
  (stepEmit [] [] s e).1

/-- `''` is falsy and every other string is truthy in JavaScript. -/
def jsTruthy (s : String) : Bool :=
  s != ""

/-- Source, line 139: the empty-state message of the open dropdown,
`searchTerm ? 'No options found' : 'No options available'`. -/
def emptyDropdownMessage (searchTerm : String) : String :=
  if jsTruthy searchTerm then "No options found" else "No options available"

/-- Source, lines 135-153: the message rendered in the dropdown panel:
the panel exists only while `isOpen`, and shows the empty-state message
exactly when `filteredOptions.length === 0` (otherwise it shows the option
rows, and no message). -/
def renderedDropdownMessage (options selectedValues : List String)
    (searchTerm : String) (isOpen : Bool) : Option String :=
  if isOpen then
    if (filteredOptions options selectedValues searchTerm).length == 0 then
      some (emptyDropdownMessage searchTerm)
    else none
  else none

/-- Claim C1: for every `options`, `selectedValues` and `searchTerm`, the
candidate list rendered in the open picker equals the entries of `options`,
in their original relative order, that are not members of `selectedValues`
and whose lowercased text contains the lowercased `searchTerm` as a
substring; no other entry is shown and no ranking or fuzzy matching is
applied.  `filteredOptions` coincides with the spec's visibility formula, is
a sublist of `options` (so the original relative order is preserved and
nothing is reordered or ranked), and contains exactly the stated entries. -/
theorem C1_candidate_list_characterization
    (options selectedValues : List String) (searchTerm : String) :
    filteredOptions options selectedValues searchTerm
        = specCandidateVisibility options selectedValues searchTerm
    ∧ (filteredOptions options selectedValues searchTerm).Sublist options
    ∧ ∀ o, o ∈ filteredOptions options selectedValues searchTerm ↔
        (o ∈ options ∧ o ∉ selectedValues
          ∧ jsStringIncludes (jsToLowerCase o) (jsToLowerCase searchTerm) = true) := by
  refine ⟨?_, List.filter_sublist _, ?_⟩
  · exact List.filter_congr fun x _ => by rw [Bool.and_comm]
  · intro o
    simp [filteredOptions, List.mem_filter, jsArrayIncludes, and_comm, and_assoc]

/-- Claim C2: selecting a candidate `c` from the visible list invokes
`onChange` with exactly `selectedValues` with `c` appended at the end,
resets the search term to the empty string, and leaves the dropdown open. -/
theorem C2_select_appends_resets_search_stays_open
    (options selectedValues : List String) (s : MSState) (c : String)
    (hopen : s.isOpen = true)
    (hvis : c ∈ filteredOptions options selectedValues s.searchTerm) :
    stepEmit options selectedValues s (MSEvent.selectOption c)
      = ({ isOpen := true, searchTerm := "" }, some (selectedValues ++ [c])) := by
  obtain ⟨o, t⟩ := s
  subst hopen
  rfl

theorem C2_witness :
    stepEmit ["Red", "Green"] ["Blue"] { isOpen := true, searchTerm := "" }
        (MSEvent.selectOption "Red")
      = ({ isOpen := true, searchTerm := "" }, some (["Blue"] ++ ["Red"])) :=
  C2_select_appends_resets_search_stays_open ["Red", "Green"] ["Blue"]
    { isOpen := true, searchTerm := "" } "Red" rfl (by decide)

/-- Claim C3: removing the chip of a value `v` invokes `onChange` with the
sequence obtained from `selectedValues` by deleting every occurrence equal
to `v` under exact string equality (all duplicate occurrences removed), and
the open/closed state is unchanged by the removal.  The emitted sequence
equals `selectedValues` filtered by propositional inequality with `v`, its
members are exactly the members of `selectedValues` other than `v`, it keeps
the relative order of `selectedValues`, and no occurrence of `v` remains. -/
theorem C3_remove_deletes_every_occurrence
    (options selectedValues : List String) (s : MSState) (v : String) :
    stepEmit options selectedValues s (MSEvent.removeChip v)
        = (s, some (handleRemove selectedValues v))
    ∧ handleRemove selectedValues v
        = selectedValues.filter (fun x => decide (x ≠ v))
    ∧ (∀ w, w ∈ handleRemove selectedValues v ↔ (w ∈ selectedValues ∧ w ≠ v))
    ∧ (handleRemove selectedValues v).Sublist selectedValues
    ∧ v ∉ handleRemove selectedValues v := by
  refine ⟨rfl, ?_, ?_, List.filter_sublist _, ?_⟩
  · exact List.filter_congr fun x _ => by
      by_cases hxv : x = v <;> simp [hxv, bne_iff_ne]
  · intro w
    simp [handleRemove, List.mem_filter]
  · simp [handleRemove, List.mem_filter]

/-- Claim C9: removing a value `v` that does not occur in `selectedValues`
invokes `onChange` with a sequence equal element-for-element to
`selectedValues`: removal of an absent value is the identity on the
selection. -/
theorem C9_remove_absent_is_identity
    (options selectedValues : List String) (s : MSState) (v : String)
    (h : v ∉ selectedValues) :
    handleRemove selectedValues v = selectedValues
    ∧ stepEmit options selectedValues s (MSEvent.removeChip v)
        = (s, some selectedValues) := by
  have he : handleRemove selectedValues v = selectedValues := by
    apply List.filter_eq_self.mpr
    intro x hx
    simp only [bne_iff_ne, ne_eq, decide_eq_true_eq]
    exact fun heq => h (heq ▸ hx)
  exact ⟨he, by simp [stepEmit, he]⟩

theorem C9_witness :
    handleRemove ["Red"] "Blue" = ["Red"]
    ∧ stepEmit [] ["Red"] initState (MSEvent.removeChip "Blue")
        = (initState, some ["Red"]) :=
  C9_remove_absent_is_identity [] ["Red"] initState "Blue" (by decide)

/-- Claim C4 counterexample: the claim says every Closed→Open transition,
including one triggered by a click on the field's container, resets the
search term.  The container click handler is `() => setIsOpen(true)` and
does not touch the search term.  Reachable refutation: from the initial
state, open via the toggle, type `"x"`, close via Escape — the component is
Closed with search term `"x"`; a container click then transitions
Closed→Open while the search term stays `"x"`, not the empty string. -/
theorem C4_counterexample :
    (([MSEvent.toggleClick, MSEvent.inputChange "x", MSEvent.escapeKey].foldl
        step initState).isOpen = false)
    ∧ (step ([MSEvent.toggleClick, MSEvent.inputChange "x", MSEvent.escapeKey].foldl
        step initState) MSEvent.containerClick).isOpen = true
    ∧ ¬ (step ([MSEvent.toggleClick, MSEvent.inputChange "x", MSEvent.escapeKey].foldl
        step initState) MSEvent.containerClick).searchTerm = "" := by
  decide

/-- Claim C4 amended: a Closed→Open transition triggered by the toggle
control resets the search term to the empty string, but a Closed→Open
transition triggered by a click on the field's container leaves the search
term unchanged (it can be non-empty when the dropdown was last closed via
Escape or an outside pointer-down). -/
theorem C4_amended_only_toggle_resets_search
    (s : MSState) (hclosed : s.isOpen = false) :
    (step s MSEvent.toggleClick).isOpen = true
    ∧ (step s MSEvent.toggleClick).searchTerm = ""
    ∧ (step s MSEvent.containerClick).isOpen = true
    ∧ (step s MSEvent.containerClick).searchTerm = s.searchTerm := by
  obtain ⟨o, t⟩ := s
  subst hclosed
  exact ⟨rfl, rfl, rfl, rfl⟩

theorem C4_witness :
    (step { isOpen := false, searchTerm := "x" } MSEvent.toggleClick).isOpen = true
    ∧ (step { isOpen := false, searchTerm := "x" } MSEvent.toggleClick).searchTerm = ""
    ∧ (step { isOpen := false, searchTerm := "x" } MSEvent.containerClick).isOpen = true
    ∧ (step { isOpen := false, searchTerm := "x" } MSEvent.containerClick).searchTerm
        = ({ isOpen := false, searchTerm := "x" } : MSState).searchTerm :=
  C4_amended_only_toggle_resets_search { isOpen := false, searchTerm := "x" } rfl

/-- Claim C6 counterexample: the claim says every Open→Closed transition
(outside pointer-down, Escape, or toggle) resets the search term.  The
Escape handler is `setIsOpen(false)` alone and the outside-click handler is
`setIsOpen(false)` alone.  Reachable refutation: from the initial state,
open via the toggle and type `"x"`; Escape then transitions Open→Closed
while the search term stays `"x"`, not the empty string. -/
theorem C6_counterexample :
    (([MSEvent.toggleClick, MSEvent.inputChange "x"].foldl step initState).isOpen = true)
    ∧ (step ([MSEvent.toggleClick, MSEvent.inputChange "x"].foldl step initState)
        MSEvent.escapeKey).isOpen = false
    ∧ ¬ (step ([MSEvent.toggleClick, MSEvent.inputChange "x"].foldl step initState)
        MSEvent.escapeKey).searchTerm = "" := by
  decide

/-- Claim C6 amended: search term and open/closed state start at their
defaults (empty string, Closed) at mount; the search term is reset to the
empty string by every toggle activation and after every selection, but an
Open→Closed transition via Escape or via an outside pointer-down leaves the
search term unchanged. -/
theorem C6_amended_reset_points
    (s : MSState) (o : String) (hopen : s.isOpen = true) :
    initState.isOpen = false ∧ initState.searchTerm = ""
    ∧ (step s MSEvent.toggleClick).searchTerm = ""
    ∧ (step s (MSEvent.selectOption o)).searchTerm = ""
    ∧ (step s MSEvent.escapeKey).isOpen = false
    ∧ (step s MSEvent.escapeKey).searchTerm = s.searchTerm
    ∧ (step s MSEvent.outsideMouseDown).isOpen = false
    ∧ (step s MSEvent.outsideMouseDown).searchTerm = s.searchTerm := by
  obtain ⟨b, t⟩ := s
  subst hopen
  exact ⟨rfl, rfl, rfl, rfl, rfl, rfl, rfl, rfl⟩

theorem C6_witness :
    initState.isOpen = false ∧ initState.searchTerm = ""
    ∧ (step { isOpen := true, searchTerm := "x" } MSEvent.toggleClick).searchTerm = ""
    ∧ (step { isOpen := true, searchTerm := "x" } (MSEvent.selectOption "Red")).searchTerm = ""
    ∧ (step { isOpen := true, searchTerm := "x" } MSEvent.escapeKey).isOpen = false
    ∧ (step { isOpen := true, searchTerm := "x" } MSEvent.escapeKey).searchTerm
        = ({ isOpen := true, searchTerm := "x" } : MSState).searchTerm
    ∧ (step { isOpen := true, searchTerm := "x" } MSEvent.outsideMouseDown).isOpen = false
    ∧ (step { isOpen := true, searchTerm := "x" } MSEvent.outsideMouseDown).searchTerm
        = ({ isOpen := true, searchTerm := "x" } : MSState).searchTerm :=
  C6_amended_reset_points { isOpen := true, searchTerm := "x" } "Red" rfl

/-- Claim C7: while the dropdown is Open, a pointer-down whose target lies
outside the component's rendered DOM subtree transitions the component to
Closed, leaves the search term as it was, and emits no `onChange` payload,
so `selectedValues` is unaltered. -/
theorem C7_outside_mousedown_closes_without_onChange
    (options selectedValues : List String) (s : MSState)
    (hopen : s.isOpen = true) :
    stepEmit options selectedValues s MSEvent.outsideMouseDown
      = ({ isOpen := false, searchTerm := s.searchTerm }, none) := by
  obtain ⟨o, t⟩ := s
  subst hopen
  rfl

theorem C7_witness :
    stepEmit ["Red"] ["Blue"] { isOpen := true, searchTerm := "re" }
        MSEvent.outsideMouseDown
      = ({ isOpen := false,
           searchTerm := ({ isOpen := true, searchTerm := "re" } : MSState).searchTerm },
         none) :=
  C7_outside_mousedown_closes_without_onChange ["Red"] ["Blue"]
    { isOpen := true, searchTerm := "re" } rfl

/-- Claim C5 counterexample: the claim says that with `options = []` and
`selectedValues = []`, typing any search term still shows
"No options available".  The render picks the message by the truthiness of
`searchTerm` alone (`searchTerm ? 'No options found' : 'No options
available'`), so with `options = []` and the search term `"a"` the open
dropdown shows "No options found", not "No options available". -/
theorem C5_counterexample :
    renderedDropdownMessage [] [] "a" true = some "No options found"
    ∧ ¬ renderedDropdownMessage [] [] "a" true = some "No options available" := by
  decide

/-- Claim C5 amended: when the dropdown is open and the filtered candidate
list is empty, the message depends only on whether a search term is active:
"No options found" when the search term is non-empty, "No options
available" when it is empty — even when the candidate set itself is empty.
With `options = []` and `selectedValues = []` the picker shows "No options
available" when opened with an empty search term, and typing any search
term switches the message to "No options found". -/
theorem C5_amended_empty_state_message
    (options selectedValues : List String) (searchTerm : String)
    (hempty : filteredOptions options selectedValues searchTerm = []) :
    renderedDropdownMessage options selectedValues searchTerm true
      = some (if searchTerm = "" then "No options available" else "No options found")
    ∧ renderedDropdownMessage options selectedValues searchTerm false = none
    ∧ renderedDropdownMessage [] [] "" true = some "No options available" := by
  refine ⟨?_, rfl, by decide⟩
  by_cases h : searchTerm = ""
  · subst h
    simp [renderedDropdownMessage, hempty, emptyDropdownMessage, jsTruthy]
  · simp [renderedDropdownMessage, hempty, emptyDropdownMessage, jsTruthy,
      bne_iff_ne, h]

theorem C5_witness :
    renderedDropdownMessage ["Red"] [] "zz" true
      = some (if ("zz" : String) = "" then "No options available" else "No options found")
    ∧ renderedDropdownMessage ["Red"] [] "zz" false = none
    ∧ renderedDropdownMessage [] [] "" true = some "No options available" :=
  C5_amended_empty_state_message ["Red"] [] "zz" (by decide)

/-- The document-level listener registered by the component's `useEffect`
(source, lines 31-42): the `mousedown` event paired with the
`handleClickOutside` handler. -/
def handleClickOutsideListener : String × String :=
  ("mousedown", "handleClickOutside")

/-- The document's listener table together with whether the component is
currently mounted. -/
structure DocListenerState where
  listeners : List (String × String)
  mounted : Bool
deriving DecidableEq, Repr

/-- Before the component first mounts: no listener of the component is
registered. -/
def initDocState : DocListenerState :=
  { listeners := [], mounted := false }

/-- The effect body, `document.addEventListener('mousedown',
handleClickOutside)`. -/
def effectSetup (l : List (String × String)) : List (String × String) :=
  l ++ [handleClickOutsideListener]

/-- The effect's returned cleanup, `document.removeEventListener('mousedown',
handleClickOutside)`: it removes exactly the registration the setup added. -/
def effectCleanup (l : List (String × String)) : List (String × String) :=
  l.filter fun p => p != handleClickOutsideListener

inductive LifecycleEvent where
  | mount
  | unmount
deriving DecidableEq, Repr

/-- React runs an effect with an empty dependency array exactly once when
the component mounts, and runs its returned cleanup exactly once when the
component unmounts, regardless of how detachment occurs. -/
def lifecycleStep (d : DocListenerState) : LifecycleEvent → DocListenerState
  | .mount =>
      if d.mounted then d
      else { listeners := effectSetup d.listeners, mounted := true }
  | .unmount =>
      if d.mounted then { listeners := effectCleanup d.listeners, mounted := false }
      else d

/-- The listener table holds exactly one registration of the component's
handler while mounted, and none while unmounted. -/
def listenerInvariant (d : DocListenerState) : Prop :=
  d.listeners = if d.mounted then [handleClickOutsideListener] else []

theorem lifecycleStep_invariant (d : DocListenerState) (e : LifecycleEvent)
    (h : listenerInvariant d) : listenerInvariant (lifecycleStep d e) := by
  unfold listenerInvariant at h ⊢
  cases e
  · by_cases hm : d.mounted = true
    · simpa [lifecycleStep, hm] using h
    · rw [Bool.not_eq_true] at hm
      rw [hm] at h
      simp at h
      simp [lifecycleStep, hm, effectSetup, h]
  · by_cases hm : d.mounted = true
    · rw [hm] at h
      simp at h
      simp [lifecycleStep, hm, effectCleanup, h]
    · rw [Bool.not_eq_true] at hm
      simpa [lifecycleStep, hm] using h

theorem foldl_lifecycle_invariant (trace : List LifecycleEvent)
    (d : DocListenerState) (h : listenerInvariant d) :
    listenerInvariant (trace.foldl lifecycleStep d) := by
  induction trace generalizing d with
  | nil => exact h
  | cons e es ih => exact ih _ (lifecycleStep_invariant d e h)

/-- Claim C8: across every sequence of mount/unmount events starting before
the first mount, the component's document-level `mousedown` listener is
registered exactly while the component is mounted — it is registered on
mount and deregistered on unmount — so an unmounted component never leaves
a registered handler behind. -/
theorem C8_listener_registered_iff_mounted (trace : List LifecycleEvent) :
    ((trace.foldl lifecycleStep initDocState).listeners
        = if (trace.foldl lifecycleStep initDocState).mounted
            then [handleClickOutsideListener] else [])
    ∧ (handleClickOutsideListener ∈ (trace.foldl lifecycleStep initDocState).listeners
        ↔ (trace.foldl lifecycleStep initDocState).mounted = true) := by
  have h := foldl_lifecycle_invariant trace initDocState rfl
  unfold listenerInvariant at h
  refine ⟨h, ?_⟩
  rw [h]
  by_cases hm : (trace.foldl lifecycleStep initDocState).mounted = true
  · simp [hm]
  · rw [Bool.not_eq_true] at hm
    simp [hm]

/-- Claim C10: the exclusion of already-selected values from the visible
candidate list uses case-sensitive exact string equality while the
search-term match is case-insensitive: a candidate `c` that differs from a
selected value `s` only in case (`c ≠ s` but their lowercasings agree) is
still offered in the picker whenever its lowercased text matches the
search term, and selecting it emits a selection containing both `s` and
`c`. -/
theorem C10_selected_exclusion_is_case_sensitive
    (options selectedValues : List String) (searchTerm c s : String)
    (hc : c ∈ options) (hs : s ∈ selectedValues)
    (hne : c ≠ s) (hlow : jsToLowerCase c = jsToLowerCase s)
    (hnotsel : c ∉ selectedValues)
    (hmatch : jsStringIncludes (jsToLowerCase c) (jsToLowerCase searchTerm) = true) :
    c ∈ filteredOptions options selectedValues searchTerm
    ∧ (stepEmit options selectedValues { isOpen := true, searchTerm := searchTerm }
          (MSEvent.selectOption c)).2 = some (selectedValues ++ [c])
    ∧ s ∈ selectedValues ++ [c]
    ∧ c ∈ selectedValues ++ [c] := by
  refine ⟨?_, rfl, List.mem_append_left _ hs,
    List.mem_append_right _ (List.mem_singleton_self c)⟩
  unfold filteredOptions
  rw [List.mem_filter]
  refine ⟨hc, ?_⟩
  simp [jsArrayIncludes, hmatch, hnotsel]

theorem C10_witness :
    "Red" ∈ filteredOptions ["Red"] ["red"] ""
    ∧ (stepEmit ["Red"] ["red"] { isOpen := true, searchTerm := "" }
          (MSEvent.selectOption "Red")).2 = some (["red"] ++ ["Red"])
    ∧ "red" ∈ ["red"] ++ ["Red"]
    ∧ "Red" ∈ ["red"] ++ ["Red"] :=
  C10_selected_exclusion_is_case_sensitive ["Red"] ["red"] "" "Red" "red"
    (by decide) (by decide) (by decide) (by decide) (by decide) (by decide)

end MultiSelectModel
